import Mathlib

/-!
Shallow embedding of the FishNet classification post-processor
(`analyzeFish` in `src/hooks/useFishNet.ts`).

Scores are modelled as rationals, the single `Math.random()` draw is an
explicit parameter in `[0, 1)`, and a JS exception (property access on
`undefined`) is modelled with `Except Unit`.  The JS `Array.prototype.sort`
with the comparator `(a, b) => b.score - a.score` is a stable descending
sort, embedded as `List.insertionSort` with the relation
`fun a b => b.score ≤ a.score` (insertion sort is stable for this relation).
-/

set_option allowUnsafeReducibility true

attribute [semireducible] Rat.add Rat.mul Rat.sub Rat.inv Rat.div

deriving instance DecidableEq for Except

namespace FishNet

/-- The fixed species label list `SPECIES_LABELS` (lines 13–32). -/
def SPECIES_LABELS : List String :=
  ["catfish", "catla", "common_carp", "crab", "grass_carp",
   "mackerel", "mrigal", "pink_perch", "prawn", "red_mullet",
   "rohu", "sea_bass", "sea_bream", "silver_carp", "sprat",
   "tilapia", "trout", "wild_fish_background"]

/-- The localization map `DISPLAY_NAMES` (lines 35–41); `none` models a
missing key. -/
def DISPLAY_NAMES (s : String) : Option String :=
  if s = "sprat" then some "Sardine (Mathi)"
  else if s = "catla" then some "Catla (Indian Carp)"
  else if s = "rohu" then some "Rohu (Rui)"
  else if s = "prawn" then some "Prawn / Shrimp"
  else if s = "wild_fish_background" then some "Unknown / Background"
  else none

/-- `DISPLAY_NAMES[finalChoice.label] || finalChoice.label` (line 287);
a `none` label (JS `undefined`) passes through as `none`. -/
def displayName : Option String → Option String
  | none => none
  | some s => some ((DISPLAY_NAMES s).getD s)

/-- One entry of the `predictions` array (lines 166–170): original index,
label (`none` models `SPECIES_LABELS[i]` being `undefined` for an
out-of-range index), raw score. -/
structure Pred where
  index : ℕ
  label : Option String
  score : ℚ
  deriving DecidableEq

/-- The species comparator `(a, b) => b.score - a.score` (line 171):
descending order by score. -/
def sRel (a b : Pred) : Prop := b.score ≤ a.score

instance : DecidableRel sRel :=
  fun a b => inferInstanceAs (Decidable (b.score ≤ a.score))

instance : IsTotal Pred sRel := ⟨fun a b => le_total b.score a.score⟩

instance : IsTrans Pred sRel := ⟨fun _ _ _ h1 h2 => le_trans h2 h1⟩

/-- `Array.from(spData).map((p, i) => ({index: i, label: SPECIES_LABELS[i],
score: p}))` (lines 166–170), generalized over the start index. -/
def predsOfAux : ℕ → List ℚ → List Pred
  | _, [] => []
  | i, p :: rest => ⟨i, SPECIES_LABELS.get? i, p⟩ :: predsOfAux (i + 1) rest

/-- The `predictions` array before sorting. -/
def predsOf (sp : List ℚ) : List Pred := predsOfAux 0 sp

/-- Lines 173–181: `finalChoice = predictions[0]` followed by the
background-suppression override.  An empty sorted list makes
`predictions[0].label` throw in JS, modelled as `Except.error`; likewise
`predictions[1].score` throws when there is no second entry. -/
def speciesChoiceA (sp : List ℚ) : Except Unit Pred :=
  match (predsOf sp).insertionSort sRel with
  | [] => Except.error ()
  | top :: rest =>
    if top.label = some "wild_fish_background" then
      match rest with
      | [] => Except.error ()
      | second :: _ =>
        if 1/20 < second.score then Except.ok second else Except.ok top
    else Except.ok top

/-- Lines 183–187: the sea-bass/carp confusion guard, applied to the
(possibly background-suppressed) choice `t`. -/
def seaBassGuard (sorted : List Pred) (t : Pred) : Pred :=
  if t.label = some "sea_bass" ∧ t.score < 1/2 then
    match sorted.find?
        (fun p => decide (p.label = some "catla" ∨ p.label = some "rohu")) with
    | some carp => if 1/20 < carp.score then carp else t
    | none => t
  else t

/-- The species entry finally chosen by lines 166–188. -/
def speciesChoice (sp : List ℚ) : Except Unit Pred :=
  match speciesChoiceA sp with
  | Except.error e => Except.error e
  | Except.ok t => Except.ok (seaBassGuard ((predsOf sp).insertionSort sRel) t)

/-- Lines 190–193: the "humble score" recalibration of the chosen raw
score into the display score. -/
def humbleScore (s : ℚ) : ℚ :=
  if s < 4/5 then 82/100 + s * (1/10)
  else if 19/20 < s then 93/100
  else s

/-- One entry of `RAW_DISEASE` (lines 196–208). -/
structure DiseaseEntry where
  key : String
  label : String
  score : ℚ
  deriving DecidableEq

instance : Inhabited DiseaseEntry := ⟨⟨"", "", 0⟩⟩

/-- The disease comparator `(a, b) => b.score - a.score` (lines 211, 242). -/
def dRel (a b : DiseaseEntry) : Prop := b.score ≤ a.score

instance : DecidableRel dRel :=
  fun a b => inferInstanceAs (Decidable (b.score ≤ a.score))

instance : IsTotal DiseaseEntry dRel := ⟨fun a b => le_total b.score a.score⟩

instance : IsTrans DiseaseEntry dRel := ⟨fun _ _ _ h1 h2 => le_trans h2 h1⟩

/-- `RAW_DISEASE` (lines 196–208); `dzData[i] ?? 0` is `List.getD dz i 0`. -/
def rawDisease (dz : List ℚ) : List DiseaseEntry :=
  [⟨"black_gill_disease", "Black Gill", dz.getD 0 0⟩,
   ⟨"healthy", "Healthy", dz.getD 1 0⟩,
   ⟨"white_spot_virus", "White Spot", dz.getD 2 0⟩]

/-- Lines 211–257: the two-tier disease gating.  Returns
`(isDiseased, dName, diseaseConf)` with `diseaseConf` still a raw
fraction (the result record multiplies it by 100).  `sorted[0]` is
embedded as `List.headI`; it always exists because `RAW_DISEASE` has
exactly three entries. -/
def diseaseResolve (dz : List ℚ) : Bool × String × ℚ :=
  let top := ((rawDisease dz).insertionSort dRel).headI
  if top.key ≠ "healthy" ∧ 65/100 ≤ top.score then
    (true, top.label ++ " Risk", top.score)
  else
    ((((rawDisease dz).filter
        (fun d => decide (d.key ≠ "healthy" ∧ 55/100 ≤ d.score))).insertionSort
          dRel).head?).elim
      (false, "Healthy",
        (((rawDisease dz).find? (fun d => decide (d.key = "healthy"))).map
          DiseaseEntry.score).getD top.score)
      (fun susp => (true, susp.label ++ " (Borderline)", susp.score))

/-- The `RAW_DISEASE` entry for black gill disease at score `s`. -/
def bgE (s : ℚ) : DiseaseEntry := ⟨"black_gill_disease", "Black Gill", s⟩

/-- The `RAW_DISEASE` entry for healthy at score `s`. -/
def hlE (s : ℚ) : DiseaseEntry := ⟨"healthy", "Healthy", s⟩

/-- The `RAW_DISEASE` entry for white spot virus at score `s`. -/
def wsE (s : ℚ) : DiseaseEntry := ⟨"white_spot_virus", "White Spot", s⟩

/-- Lines 259–283: freshness derivation.  `rand` is the `Math.random()`
draw.  Note both arms of the diseased branch assign the label "Stale". -/
def freshnessOf (isDiseased : Bool) (diseaseConf displayScore rand : ℚ) :
    ℚ × String :=
  if isDiseased then
    let clamped := min (max diseaseConf (11/20)) 1
    let fs := 45/100 - (clamped - 11/20) * (6/10)
    (fs, if fs < 2/5 then "Stale" else "Stale")
  else
    let base := min (max displayScore (4/5)) (97/100)
    let fs := base - 3/100 + rand * (4/100)
    (fs, if fs < 3/4 then "Stale" else "Fresh")

/-- The result record (`FishAnalysis`); `speciesName : Option String`
models the possibility of a JS `undefined` name. -/
structure AnalysisResult where
  speciesName : Option String
  speciesConfidence : ℚ
  freshScore : ℚ
  freshLabel : String
  diseaseName : String
  hasDisease : Bool
  diseaseConfidence : ℚ
  boxYMin : ℚ
  boxXMin : ℚ
  boxYMax : ℚ
  boxXMax : ℚ
  deriving DecidableEq

/-- `FALLBACK_RESULT` (lines 45–50). -/
def FALLBACK_RESULT : AnalysisResult :=
  { speciesName := some "rohu", speciesConfidence := 177/2,
    freshScore := 92/100, freshLabel := "Fresh",
    diseaseName := "healthy", hasDisease := false, diseaseConfidence := 471/5,
    boxYMin := 0, boxXMin := 0, boxYMax := 1, boxXMax := 1 }

/-- The body of the inner `try` (lines 148–305) applied to
already-materialized score vectors; `Except.error` models a thrown JS
exception. -/
def analyzeFishE (sp dz : List ℚ) (rand : ℚ) : Except Unit AnalysisResult :=
  match speciesChoice sp with
  | Except.error e => Except.error e
  | Except.ok finalChoice =>
    let displayScore := humbleScore finalChoice.score
    let d := diseaseResolve dz
    let fr := freshnessOf d.1 d.2.2 displayScore rand
    Except.ok
      { speciesName := displayName finalChoice.label,
        speciesConfidence := displayScore * 100,
        freshScore := fr.1, freshLabel := fr.2,
        diseaseName := d.2.1, hasDisease := d.1,
        diseaseConfidence := d.2.2 * 100,
        boxYMin := 0, boxXMin := 0, boxYMax := 1, boxXMax := 1 }

/-- `analyzeFish` with its `catch` blocks (lines 306–311): any thrown
exception is replaced by the fallback record. -/
def analyzeFish (sp dz : List ℚ) (rand : ℚ) : AnalysisResult :=
  match analyzeFishE sp dz rand with
  | Except.ok r => r
  | Except.error _ => FALLBACK_RESULT

/-- A fixed well-formed species vector (18 zero scores), used as a neutral
input when exercising the disease and freshness logic. -/
def sp18 : List ℚ := List.replicate 18 0

/-- A species vector with a strictly dominant catla score (index 1). -/
def vC4 : List ℚ :=
  [0, 9/10, 0, 0, 0, 0, 0, 0, 0, 0, 0, 0, 0, 0, 0, 0, 0, 0]

/-- A species vector with background 0.9 (index 17), sea bass 0.4 (index
11) and catla 0.1 (index 1): the background-suppression pick is then
itself overridden by the sea-bass/carp guard. -/
def vC5 : List ℚ :=
  [0, 1/10, 0, 0, 0, 0, 0, 0, 0, 0, 0, 2/5, 0, 0, 0, 0, 0, 9/10]

/-- A species vector with background 0.9 (index 17) and rohu 0.06 (index
10): background suppression picks rohu and nothing overrides it. -/
def vW5 : List ℚ :=
  [0, 0, 0, 0, 0, 0, 0, 0, 0, 0, 3/50, 0, 0, 0, 0, 0, 0, 9/10]

/-- A species vector with sea bass 0.4 (index 11) and catla 0.1 (index
1): the sea-bass/carp guard fires. -/
def vC6 : List ℚ :=
  [0, 1/10, 0, 0, 0, 0, 0, 0, 0, 0, 0, 2/5, 0, 0, 0, 0, 0, 0]

/-- Inversion for a successful run: the result record is built from the
chosen species entry and the disease resolution. -/
lemma analyzeFishE_ok_inv (sp dz : List ℚ) (rand : ℚ) (res : AnalysisResult)
    (h : analyzeFishE sp dz rand = Except.ok res) :
    ∃ t, speciesChoice sp = Except.ok t ∧
      res =
        { speciesName := displayName t.label,
          speciesConfidence := humbleScore t.score * 100,
          freshScore := (freshnessOf (diseaseResolve dz).1 (diseaseResolve dz).2.2
            (humbleScore t.score) rand).1,
          freshLabel := (freshnessOf (diseaseResolve dz).1 (diseaseResolve dz).2.2
            (humbleScore t.score) rand).2,
          diseaseName := (diseaseResolve dz).2.1,
          hasDisease := (diseaseResolve dz).1,
          diseaseConfidence := (diseaseResolve dz).2.2 * 100,
          boxYMin := 0, boxXMin := 0, boxYMax := 1, boxXMax := 1 } := by
  unfold analyzeFishE at h
  cases hsc : speciesChoice sp with
  | error e => rw [hsc] at h; cases h
  | ok t =>
    rw [hsc] at h
    injection h with h'
    exact ⟨t, rfl, h'.symm⟩

/-- C2: whenever an internal computation step throws (the `Except`
embedding produces an error), `analyzeFish` returns exactly the fixed
fallback record — no exception reaches the caller and no partial result
is produced. -/
theorem fishnet_C2 (sp dz : List ℚ) (rand : ℚ)
    (h : analyzeFishE sp dz rand = Except.error ()) :
    analyzeFish sp dz rand = FALLBACK_RESULT := by
  unfold analyzeFish
  rw [h]

theorem fishnet_C2_witness :
    analyzeFishE [] [] 0 = Except.error () ∧
      analyzeFish [] [] 0 = FALLBACK_RESULT :=
  ⟨rfl, fishnet_C2 [] [] 0 rfl⟩

/-- C3 counterexample: the malformed inputs `spData = [0.9]` (too short
for 18 labels) and `dzData = []` (empty) do not throw anywhere — missing
disease scores are read as 0 via `?? 0` — so the result is a catfish
record, not the fallback. -/
theorem fishnet_C3_counterexample :
    ([(9 : ℚ)/10] : List ℚ).length ≠ 18 ∧ ([] : List ℚ).length ≠ 3 ∧
      (analyzeFish [9/10] [] 0).speciesName = some "catfish" ∧
      analyzeFish [9/10] [] 0 ≠ FALLBACK_RESULT := by
  refine ⟨by decide, by decide, by decide, by decide⟩

/-- C3 amended: an *empty* species vector — the only malformed input on
which processing actually throws (`predictions[0].label` on an empty
array) — yields exactly the fallback record, for every disease vector
and every random draw; short disease vectors are instead padded with
zeros and short non-empty species vectors are processed normally. -/
theorem fishnet_C3_amended (dz : List ℚ) (rand : ℚ) :
    analyzeFish [] dz rand = FALLBACK_RESULT := rfl

/-- C10: determinism — two invocations of the post-processor with equal
species vectors, equal disease vectors and an equal random draw produce
identical `AnalysisResult` records in every field. -/
theorem fishnet_C10 (sp₁ sp₂ dz₁ dz₂ : List ℚ) (r₁ r₂ : ℚ)
    (hsp : sp₁ = sp₂) (hdz : dz₁ = dz₂) (hr : r₁ = r₂) :
    analyzeFish sp₁ dz₁ r₁ = analyzeFish sp₂ dz₂ r₂ := by
  rw [hsp, hdz, hr]

theorem fishnet_C10_witness :
    analyzeFish sp18 [0, 9/10, 0] 0 = analyzeFish sp18 [0, 9/10, 0] 0 :=
  fishnet_C10 sp18 sp18 [0, 9/10, 0] [0, 9/10, 0] 0 0 rfl rfl rfl

/-- C7: for every successful analysis the reported species confidence is
the humble-score recalibration of the final chosen raw score times 100;
the recalibration is exactly the claimed piecewise formula, and the three
quoted sample points evaluate to 87.0, 93.0 and 85.0. -/
theorem fishnet_C7 (sp dz : List ℚ) (rand : ℚ) (res : AnalysisResult) (t : Pred)
    (hsc : speciesChoice sp = Except.ok t)
    (h : analyzeFishE sp dz rand = Except.ok res) :
    res.speciesConfidence = humbleScore t.score * 100 ∧
      humbleScore t.score =
        (if t.score < 4/5 then 82/100 + t.score * (1/10)
         else if 19/20 < t.score then 93/100 else t.score) ∧
      humbleScore (1/2) * 100 = 87 ∧
      humbleScore (99/100) * 100 = 93 ∧
      humbleScore (17/20) * 100 = 85 := by
  obtain ⟨t', hsc', hres⟩ := analyzeFishE_ok_inv sp dz rand res h
  rw [hsc] at hsc'
  injection hsc' with ht
  subst ht
  subst hres
  exact ⟨rfl, rfl, by decide, by decide, by decide⟩

theorem fishnet_C7_witness :
    (analyzeFish sp18 [0, 9/10, 0] 0).speciesConfidence =
        humbleScore (Pred.mk 0 (some "catfish") 0).score * 100 ∧
      humbleScore (Pred.mk 0 (some "catfish") 0).score =
        (if (Pred.mk 0 (some "catfish") 0).score < 4/5 then
          82/100 + (Pred.mk 0 (some "catfish") 0).score * (1/10)
         else if 19/20 < (Pred.mk 0 (some "catfish") 0).score then 93/100
         else (Pred.mk 0 (some "catfish") 0).score) ∧
      humbleScore (1/2) * 100 = 87 ∧
      humbleScore (99/100) * 100 = 93 ∧
      humbleScore (17/20) * 100 = 85 :=
  fishnet_C7 sp18 [0, 9/10, 0] 0 (analyzeFish sp18 [0, 9/10, 0] 0)
    (Pred.mk 0 (some "catfish") 0) (by decide) (by decide)

/-- C8: every successful analysis with `hasDisease = true` reports
freshness score `0.45 - (clamp(c, 0.55, 1.0) - 0.55) * 0.6` (where `c` is
the raw disease confidence, i.e. the reported percentage divided by 100)
and label "Stale"; in particular `c = 0.55` gives score 0.45 and `c = 1.0`
gives score 0.18, both labelled "Stale". -/
theorem fishnet_C8 (sp dz : List ℚ) (rand : ℚ) (res : AnalysisResult)
    (h : analyzeFishE sp dz rand = Except.ok res)
    (hd : res.hasDisease = true) :
    (res.freshScore =
        45/100 - (min (max (res.diseaseConfidence / 100) (11/20)) 1 - 11/20) * (6/10) ∧
      res.freshLabel = "Stale") ∧
      (analyzeFish sp18 [11/20, 1/5, 1/10] 0).hasDisease = true ∧
      (analyzeFish sp18 [11/20, 1/5, 1/10] 0).diseaseConfidence = 55 ∧
      (analyzeFish sp18 [11/20, 1/5, 1/10] 0).freshScore = 45/100 ∧
      (analyzeFish sp18 [11/20, 1/5, 1/10] 0).freshLabel = "Stale" ∧
      (analyzeFish sp18 [1, 0, 0] 0).hasDisease = true ∧
      (analyzeFish sp18 [1, 0, 0] 0).diseaseConfidence = 100 ∧
      (analyzeFish sp18 [1, 0, 0] 0).freshScore = 18/100 ∧
      (analyzeFish sp18 [1, 0, 0] 0).freshLabel = "Stale" := by
  refine ⟨?_, by decide, by decide, by decide, by decide, by decide, by decide,
    by decide, by decide⟩
  obtain ⟨t, hsc, hres⟩ := analyzeFishE_ok_inv sp dz rand res h
  subst hres
  simp only at hd
  have hconf : ((diseaseResolve dz).2.2 * 100) / 100 = (diseaseResolve dz).2.2 := by
    field_simp
  simp only [freshnessOf, hd, if_true]
  constructor
  · simp only [hconf]
  · exact ite_self "Stale"

theorem fishnet_C8_witness :
    ((analyzeFish sp18 [1, 0, 0] 0).freshScore =
        45/100 - (min (max ((analyzeFish sp18 [1, 0, 0] 0).diseaseConfidence / 100)
          (11/20)) 1 - 11/20) * (6/10) ∧
      (analyzeFish sp18 [1, 0, 0] 0).freshLabel = "Stale") ∧
      (analyzeFish sp18 [11/20, 1/5, 1/10] 0).hasDisease = true ∧
      (analyzeFish sp18 [11/20, 1/5, 1/10] 0).diseaseConfidence = 55 ∧
      (analyzeFish sp18 [11/20, 1/5, 1/10] 0).freshScore = 45/100 ∧
      (analyzeFish sp18 [11/20, 1/5, 1/10] 0).freshLabel = "Stale" ∧
      (analyzeFish sp18 [1, 0, 0] 0).hasDisease = true ∧
      (analyzeFish sp18 [1, 0, 0] 0).diseaseConfidence = 100 ∧
      (analyzeFish sp18 [1, 0, 0] 0).freshScore = 18/100 ∧
      (analyzeFish sp18 [1, 0, 0] 0).freshLabel = "Stale" :=
  fishnet_C8 sp18 [1, 0, 0] 0 (analyzeFish sp18 [1, 0, 0] 0) (by decide) (by decide)

/-- C9: for every successful analysis with `hasDisease = false` and every
random draw in `[0, 1)` (i.e. every jitter in `[0, 0.04)`), the freshness
score is at least 0.77 — the species display score is clamped to
`[0.8, 0.97]` before the jitter — so the sub-0.75 "Stale" branch of the
healthy path is unreachable and the label is always "Fresh". -/
theorem fishnet_C9 (sp dz : List ℚ) (rand : ℚ) (h0 : 0 ≤ rand) (h1 : rand < 1)
    (res : AnalysisResult) (h : analyzeFishE sp dz rand = Except.ok res)
    (hd : res.hasDisease = false) :
    res.freshLabel = "Fresh" ∧ 77/100 ≤ res.freshScore := by
  obtain ⟨t, hsc, hres⟩ := analyzeFishE_ok_inv sp dz rand res h
  subst hres
  simp only at hd
  have hbase : (4 : ℚ)/5 ≤ min (max (humbleScore t.score) (4/5)) (97/100) :=
    le_min (le_max_right _ _) (by norm_num)
  have hjit : (0 : ℚ) ≤ rand * (4/100) := mul_nonneg h0 (by norm_num)
  simp only [freshnessOf, hd, if_false, Bool.false_eq_true]
  constructor
  · rw [if_neg]
    push_neg
    linarith
  · linarith

theorem fishnet_C9_witness :
    (analyzeFish sp18 [0, 9/10, 0] 0).freshLabel = "Fresh" ∧
      77/100 ≤ (analyzeFish sp18 [0, 9/10, 0] 0).freshScore :=
  fishnet_C9 sp18 [0, 9/10, 0] 0 (by decide) (by decide)
    (analyzeFish sp18 [0, 9/10, 0] 0) (by decide) (by decide)

lemma rawDisease_eq (d0 d1 d2 : ℚ) :
    rawDisease [d0, d1, d2] = [bgE d0, hlE d1, wsE d2] := rfl

lemma sort3 (d0 d1 d2 : ℚ) :
    List.insertionSort dRel [bgE d0, hlE d1, wsE d2] =
      if d2 ≤ d1 then
        if d1 ≤ d0 then [bgE d0, hlE d1, wsE d2]
        else if d2 ≤ d0 then [hlE d1, bgE d0, wsE d2]
        else [hlE d1, wsE d2, bgE d0]
      else
        if d2 ≤ d0 then [bgE d0, wsE d2, hlE d1]
        else if d1 ≤ d0 then [wsE d2, bgE d0, hlE d1]
        else [wsE d2, hlE d1, bgE d0] := by
  simp only [List.insertionSort, List.orderedInsert]
  split_ifs <;> simp_all [dRel, bgE, hlE, wsE] <;> split_ifs <;>
    first | rfl | linarith | (exfalso; linarith)

lemma filterSusp (d0 d1 d2 : ℚ) :
    List.filter (fun d => decide (d.key ≠ "healthy" ∧ 55/100 ≤ d.score))
        [bgE d0, hlE d1, wsE d2] =
      (if 55/100 ≤ d0 then [bgE d0] else []) ++
        (if 55/100 ≤ d2 then [wsE d2] else []) := by
  by_cases a : 55/100 ≤ d0 <;> by_cases c : 55/100 ≤ d2 <;>
    simp [List.filter, bgE, hlE, wsE, a, c]

lemma findHealthy (d0 d1 d2 : ℚ) :
    List.find? (fun d => decide (d.key = "healthy")) [bgE d0, hlE d1, wsE d2] =
      some (hlE d1) := by
  simp [List.find?, bgE, hlE, wsE]

lemma top_of_sort3 (d0 d1 d2 : ℚ) :
    (List.insertionSort dRel [bgE d0, hlE d1, wsE d2]).headI =
      if d2 ≤ d1 then (if d1 ≤ d0 then bgE d0 else hlE d1)
      else (if d2 ≤ d0 then bgE d0 else wsE d2) := by
  rw [sort3]
  split_ifs <;> first | rfl | (exfalso; linarith)

lemma diseaseResolve_hardB (d0 d1 d2 : ℚ) (h10 : d1 ≤ d0) (h20 : d2 ≤ d0)
    (h65 : 65/100 ≤ d0) :
    diseaseResolve [d0, d1, d2] = (true, "Black Gill Risk", d0) := by
  have htop : ((rawDisease [d0, d1, d2]).insertionSort dRel).headI = bgE d0 := by
    rw [rawDisease_eq, top_of_sort3]
    rcases le_or_lt d2 d1 with h | h
    · rw [if_pos h, if_pos h10]
    · rw [if_neg (not_le.mpr h), if_pos h20]
  have hcond : (bgE d0).key ≠ "healthy" ∧ 65/100 ≤ (bgE d0).score :=
    ⟨by simp [bgE], h65⟩
  simp only [diseaseResolve, htop]
  rw [if_pos hcond]
  rfl

lemma diseaseResolve_hardW (d0 d1 d2 : ℚ) (h02 : d0 < d2) (h12 : d1 < d2)
    (h65 : 65/100 ≤ d2) :
    diseaseResolve [d0, d1, d2] = (true, "White Spot Risk", d2) := by
  have htop : ((rawDisease [d0, d1, d2]).insertionSort dRel).headI = wsE d2 := by
    rw [rawDisease_eq, top_of_sort3, if_neg (not_le.mpr h12),
      if_neg (not_le.mpr h02)]
  have hcond : (wsE d2).key ≠ "healthy" ∧ 65/100 ≤ (wsE d2).score :=
    ⟨by simp [wsE], h65⟩
  simp only [diseaseResolve, htop]
  rw [if_pos hcond]
  rfl

lemma sortFilterB (d0 d1 d2 : ℚ) (h55 : 55/100 ≤ d0) (h20 : d2 ≤ d0) :
    (((rawDisease [d0, d1, d2]).filter
        (fun d => decide (d.key ≠ "healthy" ∧ 55/100 ≤ d.score))).insertionSort
          dRel) =
      bgE d0 :: (if 55/100 ≤ d2 then [wsE d2] else []) := by
  rw [rawDisease_eq, filterSusp, if_pos h55]
  by_cases h55c : 55/100 ≤ d2
  · rw [if_pos h55c]
    simp only [List.cons_append, List.nil_append, List.insertionSort,
      List.orderedInsert]
    rw [if_pos (show dRel (bgE d0) (wsE d2) from h20)]
  · rw [if_neg h55c]
    rfl

lemma diseaseResolve_softB (d0 d1 d2 : ℚ) (h55 : 55/100 ≤ d0) (h20 : d2 ≤ d0)
    (hno : d1 ≤ d0 → d0 < 65/100) :
    diseaseResolve [d0, d1, d2] = (true, "Black Gill (Borderline)", d0) := by
  have hfil := sortFilterB d0 d1 d2 h55 h20
  rcases le_or_lt d1 d0 with h10 | h10
  · have htop : ((rawDisease [d0, d1, d2]).insertionSort dRel).headI = bgE d0 := by
      rw [rawDisease_eq, top_of_sort3]
      rcases le_or_lt d2 d1 with h | h
      · rw [if_pos h, if_pos h10]
      · rw [if_neg (not_le.mpr h), if_pos h20]
    simp only [diseaseResolve, htop]
    rw [if_neg (fun hc => absurd hc.2 (not_le.mpr (hno h10))), hfil]
    rfl
  · have htop : ((rawDisease [d0, d1, d2]).insertionSort dRel).headI = hlE d1 := by
      rw [rawDisease_eq, top_of_sort3, if_pos (le_trans h20 h10.le),
        if_neg (not_le.mpr h10)]
    simp only [diseaseResolve, htop]
    rw [if_neg (fun hc => hc.1 rfl), hfil]
    rfl

lemma sortFilterW (d0 d1 d2 : ℚ) (h55c : 55/100 ≤ d2) (h02 : d0 < d2) :
    (((rawDisease [d0, d1, d2]).filter
        (fun d => decide (d.key ≠ "healthy" ∧ 55/100 ≤ d.score))).insertionSort
          dRel) =
      wsE d2 :: (if 55/100 ≤ d0 then [bgE d0] else []) := by
  rw [rawDisease_eq, filterSusp, if_pos h55c]
  by_cases h55a : 55/100 ≤ d0
  · rw [if_pos h55a]
    simp only [List.cons_append, List.nil_append, List.insertionSort,
      List.orderedInsert]
    rw [if_neg (show ¬dRel (bgE d0) (wsE d2) from not_le.mpr h02)]
  · rw [if_neg h55a]
    rfl

lemma diseaseResolve_softW (d0 d1 d2 : ℚ) (h55c : 55/100 ≤ d2) (h02 : d0 < d2)
    (hno : d1 < d2 → d2 < 65/100) :
    diseaseResolve [d0, d1, d2] = (true, "White Spot (Borderline)", d2) := by
  have hfil := sortFilterW d0 d1 d2 h55c h02
  rcases le_or_lt d2 d1 with h21 | h21
  · have htop : ((rawDisease [d0, d1, d2]).insertionSort dRel).headI = hlE d1 := by
      rw [rawDisease_eq, top_of_sort3, if_pos h21,
        if_neg (not_le.mpr (lt_of_lt_of_le h02 h21))]
    simp only [diseaseResolve, htop]
    rw [if_neg (fun hc => hc.1 rfl), hfil]
    rfl
  · have htop : ((rawDisease [d0, d1, d2]).insertionSort dRel).headI = wsE d2 := by
      rw [rawDisease_eq, top_of_sort3, if_neg (not_le.mpr h21),
        if_neg (not_le.mpr h02)]
    simp only [diseaseResolve, htop]
    rw [if_neg (fun hc => absurd hc.2 (not_le.mpr (hno h21))), hfil]
    rfl

lemma diseaseResolve_healthy (d0 d1 d2 : ℚ) (ha : d0 < 55/100)
    (hc : d2 < 55/100) :
    diseaseResolve [d0, d1, d2] = (false, "Healthy", d1) := by
  have hfil : (((rawDisease [d0, d1, d2]).filter
      (fun d => decide (d.key ≠ "healthy" ∧ 55/100 ≤ d.score))).insertionSort
        dRel) = [] := by
    rw [rawDisease_eq, filterSusp, if_neg (not_le.mpr ha), if_neg (not_le.mpr hc)]
    rfl
  have hfind : ((((rawDisease [d0, d1, d2]).find?
      (fun d => decide (d.key = "healthy"))).map DiseaseEntry.score) : Option ℚ) =
      some d1 := by
    rw [rawDisease_eq, findHealthy]
    rfl
  have hhard : ¬((((rawDisease [d0, d1, d2]).insertionSort dRel).headI).key ≠
      "healthy" ∧
      65/100 ≤ (((rawDisease [d0, d1, d2]).insertionSort dRel).headI).score) := by
    rw [rawDisease_eq, top_of_sort3]
    split_ifs <;> rintro ⟨hne, hge⟩ <;> simp only [bgE, hlE, wsE] at hne hge <;>
      first | exact hne rfl | linarith
  simp only [diseaseResolve]
  rw [if_neg hhard, hfil, hfind]
  rfl

lemma diseaseResolve_eval (d0 d1 d2 : ℚ) :
    diseaseResolve [d0, d1, d2] =
      if (d1 ≤ d0 ∧ d2 ≤ d0) ∧ 65/100 ≤ d0 then (true, "Black Gill Risk", d0)
      else if (¬(d1 ≤ d0 ∧ d2 ≤ d0) ∧ d1 < d2) ∧ 65/100 ≤ d2 then
        (true, "White Spot Risk", d2)
      else if 55/100 ≤ d0 ∧ d2 ≤ d0 then (true, "Black Gill (Borderline)", d0)
      else if 55/100 ≤ d2 then (true, "White Spot (Borderline)", d2)
      else (false, "Healthy", d1) := by
  split_ifs with hb hw h3 h4
  · exact diseaseResolve_hardB d0 d1 d2 hb.1.1 hb.1.2 hb.2
  · refine diseaseResolve_hardW d0 d1 d2 ?_ hw.1.2 hw.2
    by_contra h02
    push_neg at h02
    exact hw.1.1 ⟨le_of_lt (lt_of_lt_of_le hw.1.2 h02), h02⟩
  · refine diseaseResolve_softB d0 d1 d2 h3.1 h3.2 ?_
    intro h10
    by_contra h65
    push_neg at h65
    exact hb ⟨⟨h10, h3.2⟩, h65⟩
  · -- soft white spot: h4 : 55/100 ≤ d2, ¬h3, ¬hb, ¬hw
    have h02 : d0 < d2 := by
      rcases not_and_or.mp h3 with h | h
      · push_neg at h
        exact lt_of_lt_of_le h h4
      · push_neg at h
        exact h
    refine diseaseResolve_softW d0 d1 d2 h4 h02 ?_
    intro h12
    by_contra h65
    push_neg at h65
    exact hw ⟨⟨fun hand => absurd hand.2 (not_le.mpr h02), h12⟩, h65⟩
  · -- healthy
    have hc : d2 < 55/100 := not_le.mp h4
    have ha : d0 < 55/100 := by
      rcases not_and_or.mp h3 with h | h
      · exact not_le.mp h
      · push_neg at h
        exact lt_trans h hc
    exact diseaseResolve_healthy d0 d1 d2 ha hc

/-- C1: for every 3-element disease vector, a successful analysis resolves
the disease fields in three tiers over the descending stable sort of
(black gill, healthy, white spot): a hard trigger (non-healthy top with
score at least 0.65) gives "<label> Risk" at that score times 100; else a
soft trigger (highest non-healthy class with score at least 0.55, even if
healthy is on top) gives "<label> (Borderline)" at that score times 100;
else the fish is healthy at the healthy class's score times 100. -/
theorem fishnet_C1 (sp dz : List ℚ) (rand d0 d1 d2 : ℚ) (res : AnalysisResult)
    (hdz : dz = [d0, d1, d2]) (h : analyzeFishE sp dz rand = Except.ok res) :
    (res.hasDisease, res.diseaseName, res.diseaseConfidence) =
      if (d1 ≤ d0 ∧ d2 ≤ d0) ∧ 65/100 ≤ d0 then
        (true, "Black Gill Risk", d0 * 100)
      else if (¬(d1 ≤ d0 ∧ d2 ≤ d0) ∧ d1 < d2) ∧ 65/100 ≤ d2 then
        (true, "White Spot Risk", d2 * 100)
      else if 55/100 ≤ d0 ∧ d2 ≤ d0 then
        (true, "Black Gill (Borderline)", d0 * 100)
      else if 55/100 ≤ d2 then (true, "White Spot (Borderline)", d2 * 100)
      else (false, "Healthy", d1 * 100) := by
  subst hdz
  obtain ⟨t, hsc, hres⟩ := analyzeFishE_ok_inv sp [d0, d1, d2] rand res h
  subst hres
  simp only
  rw [diseaseResolve_eval]
  split_ifs <;> rfl

theorem fishnet_C1_witness :
    ((analyzeFish sp18 [1/10, 1/5, 7/10] 0).hasDisease,
      (analyzeFish sp18 [1/10, 1/5, 7/10] 0).diseaseName,
      (analyzeFish sp18 [1/10, 1/5, 7/10] 0).diseaseConfidence) =
      if ((1 : ℚ)/5 ≤ 1/10 ∧ (7 : ℚ)/10 ≤ 1/10) ∧ (65 : ℚ)/100 ≤ 1/10 then
        (true, "Black Gill Risk", (1 : ℚ)/10 * 100)
      else if (¬((1 : ℚ)/5 ≤ 1/10 ∧ (7 : ℚ)/10 ≤ 1/10) ∧ (1 : ℚ)/5 < 7/10) ∧
          (65 : ℚ)/100 ≤ 7/10 then
        (true, "White Spot Risk", (7 : ℚ)/10 * 100)
      else if (55 : ℚ)/100 ≤ 1/10 ∧ (7 : ℚ)/10 ≤ 1/10 then
        (true, "Black Gill (Borderline)", (1 : ℚ)/10 * 100)
      else if (55 : ℚ)/100 ≤ 7/10 then
        (true, "White Spot (Borderline)", (7 : ℚ)/10 * 100)
      else (false, "Healthy", (1 : ℚ)/5 * 100) :=
  fishnet_C1 sp18 [1/10, 1/5, 7/10] 0 (1/10) (1/5) (7/10)
    (analyzeFish sp18 [1/10, 1/5, 7/10] 0) rfl (by decide)

lemma mem_predsOfAux (l : List ℚ) : ∀ (k : ℕ) (a : Pred),
    a ∈ predsOfAux k l ↔
      ∃ j, ∃ hj : j < l.length,
        a = ⟨k + j, SPECIES_LABELS.get? (k + j), l.get ⟨j, hj⟩⟩ := by
  induction l with
  | nil => intro k a; simp [predsOfAux]
  | cons x xs ih =>
    intro k a
    simp only [predsOfAux, List.mem_cons, ih (k + 1)]
    constructor
    · rintro (rfl | ⟨j, hj, rfl⟩)
      · exact ⟨0, by simp, by simp⟩
      · refine ⟨j + 1, by simpa using hj, ?_⟩
        have harith : k + (j + 1) = k + 1 + j := by omega
        rw [harith]
        rfl
    · rintro ⟨j, hj, rfl⟩
      cases j with
      | zero => left; simp
      | succ j =>
        right
        refine ⟨j, by simpa using hj, ?_⟩
        have harith : k + (j + 1) = k + 1 + j := by omega
        rw [harith]
        rfl

lemma mem_predsOf (sp : List ℚ) (a : Pred) :
    a ∈ predsOf sp ↔
      ∃ j, ∃ hj : j < sp.length,
        a = ⟨j, SPECIES_LABELS.get? j, sp.get ⟨j, hj⟩⟩ := by
  simpa using mem_predsOfAux sp 0 a

lemma sorted_head_max (l : List Pred) (top : Pred) (rest : List Pred)
    (hs : l.insertionSort sRel = top :: rest) (a : Pred) (ha : a ∈ l) :
    a.score ≤ top.score := by
  have hsort := List.sorted_insertionSort sRel l
  rw [hs] at hsort
  have ha2 : a ∈ top :: rest := by
    rw [← hs]
    exact (List.mem_insertionSort sRel).mpr ha
  rcases List.mem_cons.mp ha2 with rfl | h
  · exact le_refl _
  · exact (List.sorted_cons.mp hsort).1 a h

/-- C4: for every 18-element species vector in which one index strictly
dominates all others, whose argmax label is not wild_fish_background and
is not sea_bass with score below 0.5, the chosen species entry is exactly
the argmax entry (same index, label and score). -/
theorem fishnet_C4 (sp : List ℚ) (hlen : sp.length = 18) (i : ℕ)
    (hi : i < sp.length)
    (hdom : ∀ j, ∀ hj : j < sp.length, j ≠ i → sp.get ⟨j, hj⟩ < sp.get ⟨i, hi⟩)
    (hbg : SPECIES_LABELS.get? i ≠ some "wild_fish_background")
    (hsb : ¬(SPECIES_LABELS.get? i = some "sea_bass" ∧ sp.get ⟨i, hi⟩ < 1/2)) :
    speciesChoice sp = Except.ok ⟨i, SPECIES_LABELS.get? i, sp.get ⟨i, hi⟩⟩ := by
  have heMem : (⟨i, SPECIES_LABELS.get? i, sp.get ⟨i, hi⟩⟩ : Pred) ∈ predsOf sp :=
    (mem_predsOf sp _).mpr ⟨i, hi, rfl⟩
  obtain ⟨top, rest, hs⟩ :
      ∃ top rest, (predsOf sp).insertionSort sRel = top :: rest := by
    cases hsort : (predsOf sp).insertionSort sRel with
    | nil =>
      exfalso
      have := (List.mem_insertionSort sRel).mpr heMem
      rw [hsort] at this
      cases this
    | cons a b => exact ⟨a, b, rfl⟩
  have htope : top = ⟨i, SPECIES_LABELS.get? i, sp.get ⟨i, hi⟩⟩ := by
    have htopMem : top ∈ predsOf sp := by
      have : top ∈ top :: rest := List.mem_cons_self top rest
      rw [← hs] at this
      exact (List.mem_insertionSort sRel).mp this
    obtain ⟨j, hj, htop⟩ := (mem_predsOf sp top).mp htopMem
    by_cases hji : j = i
    · subst hji
      rw [htop]
    · exfalso
      have h1 : top.score < sp.get ⟨i, hi⟩ := by
        rw [htop]
        exact hdom j hj hji
      have h2 : (⟨i, SPECIES_LABELS.get? i, sp.get ⟨i, hi⟩⟩ : Pred).score ≤ top.score :=
        sorted_head_max _ top rest hs _ heMem
      simp only at h2
      linarith
  subst htope
  have hA : speciesChoiceA sp = Except.ok ⟨i, SPECIES_LABELS.get? i, sp.get ⟨i, hi⟩⟩ := by
    unfold speciesChoiceA
    rw [hs]
    exact if_neg hbg
  unfold speciesChoice
  rw [hA]
  exact congrArg Except.ok (if_neg hsb)

lemma vC4_len1 : 1 < vC4.length := by decide

theorem fishnet_C4_witness :
    speciesChoice vC4 =
      Except.ok ⟨1, SPECIES_LABELS.get? 1, vC4.get ⟨1, vC4_len1⟩⟩ :=
  fishnet_C4 vC4 (by decide) 1 vC4_len1 (by decide) (by decide) (by decide)

/-- C5 (amended): when the stably descending-sorted top entry is
wild_fish_background, the second entry becomes the intermediate selection
iff its score exceeds 0.05 — and it is also the final chosen species
provided it is not sea_bass with score below 0.5 — while a second score
of at most 0.05 leaves wild_fish_background as the final choice. -/
theorem fishnet_C5 (sp : List ℚ) (top second : Pred) (rest : List Pred)
    (hs : (predsOf sp).insertionSort sRel = top :: second :: rest)
    (hbg : top.label = some "wild_fish_background") :
    (1/20 < second.score →
      speciesChoiceA sp = Except.ok second ∧
      (¬(second.label = some "sea_bass" ∧ second.score < 1/2) →
        speciesChoice sp = Except.ok second)) ∧
    (second.score ≤ 1/20 → speciesChoice sp = Except.ok top) := by
  have hA : 1/20 < second.score → speciesChoiceA sp = Except.ok second := by
    intro h
    unfold speciesChoiceA
    rw [hs]
    show (if top.label = some "wild_fish_background" then
        (if 1/20 < second.score then Except.ok second else Except.ok top)
      else Except.ok top) = Except.ok second
    rw [if_pos hbg, if_pos h]
  constructor
  · intro h
    refine ⟨hA h, ?_⟩
    intro hnsb
    unfold speciesChoice
    rw [hA h]
    exact congrArg Except.ok (if_neg hnsb)
  · intro h
    have hA2 : speciesChoiceA sp = Except.ok top := by
      unfold speciesChoiceA
      rw [hs]
      show (if top.label = some "wild_fish_background" then
          (if 1/20 < second.score then Except.ok second else Except.ok top)
        else Except.ok top) = Except.ok top
      rw [if_pos hbg, if_neg (not_lt.mpr h)]
    unfold speciesChoice
    rw [hA2]
    refine congrArg Except.ok (if_neg ?_)
    rintro ⟨h1, _⟩
    rw [hbg] at h1
    simp at h1

/-- C5 counterexample: on `vC5` the sorted top is wild_fish_background
and the second entry (sea bass, score 0.4 > 0.05) does NOT become the
chosen species — the sea-bass/carp guard replaces it with catla. -/
theorem fishnet_C5_counterexample :
    ((predsOf vC5).insertionSort sRel).take 2 =
      [⟨17, some "wild_fish_background", 9/10⟩, ⟨11, some "sea_bass", 2/5⟩] ∧
    ((1 : ℚ)/20 < 2/5) ∧
    speciesChoice vC5 = Except.ok ⟨1, some "catla", 1/10⟩ ∧
    speciesChoice vC5 ≠ Except.ok ⟨11, some "sea_bass", 2/5⟩ := by
  refine ⟨by decide, by decide, by decide, by decide⟩

theorem fishnet_C5_witness :
    speciesChoiceA vW5 = Except.ok ⟨10, some "rohu", 3/50⟩ ∧
      speciesChoice vW5 = Except.ok ⟨10, some "rohu", 3/50⟩ :=
  ⟨((fishnet_C5 vW5 ⟨17, some "wild_fish_background", 9/10⟩ ⟨10, some "rohu", 3/50⟩
      (((predsOf vW5).insertionSort sRel).drop 2) (by decide) (by decide)).1
      (by decide)).1,
   ((fishnet_C5 vW5 ⟨17, some "wild_fish_background", 9/10⟩ ⟨10, some "rohu", 3/50⟩
      (((predsOf vW5).insertionSort sRel).drop 2) (by decide) (by decide)).1
      (by decide)).2 (by decide)⟩

lemma find?_max_sorted (l : List Pred) (hl : List.Sorted sRel l)
    (p : Pred → Bool) (e : Pred) (he : l.find? p = some e) :
    ∀ f ∈ l, p f = true → f.score ≤ e.score := by
  induction l with
  | nil => simp at he
  | cons x xs ih =>
    rcases List.sorted_cons.mp hl with ⟨hx, hxs⟩
    by_cases hpx : p x
    · rw [List.find?_cons_of_pos _ hpx] at he
      injection he with he
      subst he
      intro f hf _
      rcases List.mem_cons.mp hf with rfl | hf
      · exact le_refl _
      · exact hx f hf
    · rw [List.find?_cons_of_neg _ hpx] at he
      intro f hf hpf
      rcases List.mem_cons.mp hf with rfl | hf
      · exact absurd hpf (by simpa using hpx)
      · exact ih hxs he f hf hpf

/-- C6: for every 18-element species vector where the (possibly
background-suppressed) intermediate choice is sea_bass with score below
0.5, the first catla/rohu entry of the sorted sequence is highest-scoring
among all catla/rohu entries, and it becomes the chosen species iff its
score exceeds 0.05, sea_bass remaining chosen otherwise. -/
theorem fishnet_C6 (sp : List ℚ) (hlen : sp.length = 18) (t : Pred)
    (ha : speciesChoiceA sp = Except.ok t)
    (hsb : t.label = some "sea_bass") (hlow : t.score < 1/2) (e : Pred)
    (he : ((predsOf sp).insertionSort sRel).find?
        (fun p => decide (p.label = some "catla" ∨ p.label = some "rohu")) =
        some e) :
    (e.label = some "catla" ∨ e.label = some "rohu") ∧
      (∀ f ∈ predsOf sp, (f.label = some "catla" ∨ f.label = some "rohu") →
        f.score ≤ e.score) ∧
      speciesChoice sp = Except.ok (if 1/20 < e.score then e else t) := by
  have hpe := List.find?_some he
  have hlab : e.label = some "catla" ∨ e.label = some "rohu" := by simpa using hpe
  refine ⟨hlab, ?_, ?_⟩
  · intro f hf hflab
    have hfs : f ∈ (predsOf sp).insertionSort sRel :=
      (List.mem_insertionSort sRel).mpr hf
    exact find?_max_sorted _ (List.sorted_insertionSort sRel _) _ e he f hfs
      (by simpa using hflab)
  · unfold speciesChoice
    rw [ha]
    refine congrArg Except.ok ?_
    unfold seaBassGuard
    rw [if_pos ⟨hsb, hlow⟩, he]

theorem fishnet_C6_witness :
    ((⟨1, some "catla", 1/10⟩ : Pred).label = some "catla" ∨
      (⟨1, some "catla", 1/10⟩ : Pred).label = some "rohu") ∧
      ((⟨10, some "rohu", 0⟩ : Pred).score ≤ (⟨1, some "catla", 1/10⟩ : Pred).score) ∧
      speciesChoice vC6 =
        Except.ok (if 1/20 < (⟨1, some "catla", 1/10⟩ : Pred).score then
          (⟨1, some "catla", (1 : ℚ)/10⟩ : Pred) else ⟨11, some "sea_bass", 2/5⟩) := by
  have T := fishnet_C6 vC6 (by decide) ⟨11, some "sea_bass", 2/5⟩ (by decide) rfl
    (by decide) ⟨1, some "catla", 1/10⟩ (by decide)
  exact ⟨T.1, T.2.1 ⟨10, some "rohu", 0⟩ (by decide) (by decide), T.2.2⟩

end FishNet

